import Mathlib

/-!
Shallow embedding of the tool-dispatch and query-safety layer of the
postgres MCP server (src/index.ts).  JSON values are modelled by `Value`,
the pg pool / driver by an oracle `Db`, and each handler returns its
result together with a trace of connection acquisitions, releases and
executed queries.  JS numbers are modelled as `Int` (the claims only
involve integral inputs); zod error messages are abbreviated to the
issue message text.
-/

/-- JSON-ish runtime values exchanged with the transport and the driver. -/
inductive Value where
  | vnull
  | vbool (b : Bool)
  | vnum (n : Int)
  | vstr (s : String)
  | varr (elems : List Value)
  | vobj (fields : List (String × Value))

/-- First binding of a key in a JS object (keys are unique at runtime). -/
def lookupKey (fs : List (String × Value)) (k : String) : Option Value :=
  match fs with
  | [] => none
  | (k', v) :: rest => if k' = k then some v else lookupKey rest k

/-! ### The statement guard (index.ts lines 215-226)

`const dangerousPatterns = [/\b(DROP|DELETE|TRUNCATE|ALTER|CREATE|INSERT|UPDATE)\s+/i]`
`const isDangerous = dangerousPatterns.some(pattern => pattern.test(sql))`
`if (isDangerous && !sql.trim().toLowerCase().startsWith('select')) throw ...`
-/

/-- JavaScript regex `\s` / `String.prototype.trim` whitespace class. -/
def jsIsSpace (c : Char) : Bool :=
  let n := c.toNat
  n == 0x20 || n == 0x9 || n == 0xa || n == 0xb || n == 0xc || n == 0xd ||
  n == 0xa0 || n == 0x1680 ||
  (decide (0x2000 ≤ n) && decide (n ≤ 0x200a)) ||
  n == 0x2028 || n == 0x2029 || n == 0x202f || n == 0x205f || n == 0x3000 ||
  n == 0xfeff

/-- JavaScript regex word character `\w`, i.e. `[A-Za-z0-9_]`,
used by the word-boundary assertion `\b`. -/
def jsIsWordChar (c : Char) : Bool :=
  c.isAlpha || c.isDigit || c == '_'

/-- The alternation of the dangerous-pattern regex, lowercased. -/
def dangerKeywords : List String :=
  ["drop", "delete", "truncate", "alter", "create", "insert", "update"]

/-- Case-insensitive match of keyword `kw` at the head of `cs`
(the `i` flag lowercases both sides; keywords are ASCII).
Returns the remaining characters on success. -/
def matchCI : List Char → List Char → Option (List Char)
  | [], cs => some cs
  | _ :: _, [] => none
  | k :: ks, c :: cs => if Char.toLower c == k then matchCI ks cs else none

/-- Does `\b(DROP|DELETE|TRUNCATE|ALTER|CREATE|INSERT|UPDATE)\s+` match at the
head of `cs`, the boundary having been checked by the caller?  The `\s+`
demands at least one whitespace character right after the keyword. -/
def dangerHead (cs : List Char) : Bool :=
  dangerKeywords.any fun kw =>
    match matchCI kw.data cs with
    | some (d :: _) => jsIsSpace d
    | _ => false

/-- Scan of `pattern.test(sql)`: try every position whose preceding character
is not a word character (`\b` before a leading word character). -/
def dangerScan : Bool → List Char → Bool
  | _, [] => false
  | prevWord, c :: cs =>
    (!prevWord && dangerHead (c :: cs)) || dangerScan (jsIsWordChar c) cs

/-- `isDangerous` of index.ts line 220: the regex test on the raw SQL. -/
def isDangerous (sql : String) : Bool :=
  dangerScan false sql.data

/-- `String.prototype.trim`: drop whitespace at both ends. -/
def jsTrim (cs : List Char) : List Char :=
  ((cs.dropWhile jsIsSpace).reverse.dropWhile jsIsSpace).reverse

/-- Boolean list-spelled `startsWith`. -/
def beginsWith : List Char → List Char → Bool
  | [], _ => true
  | _ :: _, [] => false
  | p :: ps, c :: cs => p == c && beginsWith ps cs

/-- `sql.trim().toLowerCase().startsWith('select')` of index.ts line 221. -/
def startsWithSelect (sql : String) : Bool :=
  beginsWith "select".data ((jsTrim sql.data).map Char.toLower)

/-- Guard decision of the spec's Statement Guard. -/
inductive GuardDecision where
  | allowed
  | rejected (reason : String)
deriving DecidableEq

/-- The guard of index.ts lines 215-226 as a pure function. -/
def guardEvaluate (sql : String) : GuardDecision :=
  if isDangerous sql && !startsWithSelect sql then
    .rejected "Only SELECT queries are allowed for security reasons"
  else
    .allowed

/-! ### Error model (MCP SDK `McpError` and the dispatch catch block) -/

/-- MCP error codes used by index.ts. -/
inductive ErrorCode where
  | InvalidParams
  | MethodNotFound
  | InternalError
deriving DecidableEq

/-- A structured MCP error. -/
structure McpError where
  code : ErrorCode
  message : String
deriving DecidableEq

/-- What a handler can throw: an `McpError`, or a raw JS error
(driver/pool failure) carrying its message. -/
inductive Thrown where
  | mcp (e : McpError)
  | js (msg : String)

/-! ### The execution collaborator (pg pool + client) -/

/-- One field descriptor of a pg result (`field.name`, `field.dataTypeID`). -/
structure FieldInfo where
  name : String
  dataTypeID : Int

/-- A pg query result. `rowCount` may be null; `fields` is carried as an
option to mirror the defensive `result.fields?.map` in index.ts. -/
structure PgResult where
  rows : List Value
  rowCount : Option Int
  fields : Option (List FieldInfo)

/-- Oracle for the pooled driver: `connect` models `pool.connect()`
(failure carries the thrown message), `run` models `client.query`. -/
structure Db where
  connect : Except String Unit
  run : String → List Value → Except String PgResult

/-! ### Responses and traces -/

/-- One content item: `{ type: "text", text: JSON.stringify(payload, null, 2) }`.
The payload is kept structured; serialization drops nothing except that an
`undefined` member never enters the payload object (see `queryPayload`). -/
structure ContentItem where
  type : String
  payload : Value

/-- A tool response `{ content: [...] }`. -/
structure ToolResponse where
  content : List ContentItem

/-- Outcome of one handler call plus the trace of its pool usage:
how many connections it acquired, how many it released, and which
queries it executed with which parameters. -/
structure HandlerOut where
  result : Except Thrown ToolResponse
  acquires : Nat
  releases : Nat
  executed : List (String × List Value)

/-- Outcome of one dispatch: the handler outcome with raw JS errors
wrapped by the catch block of `setupToolHandlers`. -/
structure DispatchOut where
  result : Except McpError ToolResponse
  acquires : Nat
  releases : Nat
  executed : List (String × List Value)

/-- Response envelope holding a single text item, as every handler builds. -/
def mkText (payload : Value) : ToolResponse :=
  ⟨[⟨"text", payload⟩]⟩

/-- An `InvalidParams` throw. -/
def invalidParams (msg : String) : Thrown :=
  .mcp ⟨.InvalidParams, msg⟩

/-! ### zod argument validation

`QuerySchema`, `TableSchema`, `TableSchema.required(\x7b table: true \x7d)` and the
inline `getTableData` schema of index.ts.  zod's `error.message` (a JSON
rendering of the issue list) is abbreviated to the decisive issue message. -/

/-- Parsed `QuerySchema` output: `sql` (non-empty) and `params` (default `[]`). -/
structure QueryArgs where
  sql : String
  params : List Value

/-- `QuerySchema.safeParse`: `sql: z.string().min(1, "SQL query cannot be
empty")`, `params: z.array(z.any()).optional().default([])`. -/
def parseQuery (args : Value) : Except String QueryArgs :=
  match args with
  | .vobj fs =>
    match lookupKey fs "sql" with
    | some (.vstr s) =>
      if 1 ≤ s.length then
        match lookupKey fs "params" with
        | none => .ok ⟨s, []⟩
        | some (.varr ps) => .ok ⟨s, ps⟩
        | some _ => .error "Expected array, received other"
      else .error "SQL query cannot be empty"
    | some _ => .error "Expected string, received other"
    | none => .error "Required"
  | _ => .error "Expected object, received other"

/-- Parsed `TableSchema` output: `schema` (default `"public"`),
`table` optional. -/
structure TableArgs where
  schema : String
  table : Option String

/-- `TableSchema.safeParse`: `schema: z.string().optional().default("public")`,
`table: z.string().optional()`. -/
def parseTable (args : Value) : Except String TableArgs :=
  match args with
  | .vobj fs =>
    match lookupKey fs "schema" with
    | none =>
      match lookupKey fs "table" with
      | none => .ok ⟨"public", none⟩
      | some (.vstr t) => .ok ⟨"public", some t⟩
      | some _ => .error "Expected string, received other"
    | some (.vstr s) =>
      match lookupKey fs "table" with
      | none => .ok ⟨s, none⟩
      | some (.vstr t) => .ok ⟨s, some t⟩
      | some _ => .error "Expected string, received other"
    | some _ => .error "Expected string, received other"
  | _ => .error "Expected object, received other"

/-- Parsed `TableSchema.required` output used by `describeTable`. -/
structure DescribeArgs where
  schema : String
  table : String

/-- `TableSchema.required` with table made mandatory: unwrapping
`z.string().optional()` leaves plain `z.string()`, so presence of a string
is demanded but the empty string still parses. -/
def parseDescribe (args : Value) : Except String DescribeArgs :=
  match args with
  | .vobj fs =>
    match lookupKey fs "table" with
    | some (.vstr t) =>
      match lookupKey fs "schema" with
      | none => .ok ⟨"public", t⟩
      | some (.vstr s) => .ok ⟨s, t⟩
      | some _ => .error "Expected string, received other"
    | some _ => .error "Expected string, received other"
    | none => .error "Required"
  | _ => .error "Expected object, received other"

/-- Parsed inline `getTableData` schema output. -/
structure GetDataArgs where
  table : String
  schema : String
  limit : Int

/-- The inline zod schema of `getTableData`: `table: z.string().min(1,
"Table name cannot be empty")`, `schema` defaulting to `"public"`,
`limit: z.number().positive().optional().default(10)`. -/
def parseGetData (args : Value) : Except String GetDataArgs :=
  match args with
  | .vobj fs =>
    match lookupKey fs "table" with
    | some (.vstr t) =>
      if 1 ≤ t.length then
        match lookupKey fs "schema" with
        | none =>
          match lookupKey fs "limit" with
          | none => .ok ⟨t, "public", 10⟩
          | some (.vnum n) =>
            if 0 < n then .ok ⟨t, "public", n⟩
            else .error "Number must be greater than 0"
          | some _ => .error "Expected number, received other"
        | some (.vstr s) =>
          match lookupKey fs "limit" with
          | none => .ok ⟨t, s, 10⟩
          | some (.vnum n) =>
            if 0 < n then .ok ⟨t, s, n⟩
            else .error "Number must be greater than 0"
          | some _ => .error "Expected number, received other"
        | some _ => .error "Expected string, received other"
      else .error "Table name cannot be empty"
    | some _ => .error "Expected string, received other"
    | none => .error "Required"
  | _ => .error "Expected object, received other"

/-! ### Handlers (index.ts lines 204-403) -/

/-- `result.fields?.map(field => ({name, dataTypeID}))` member value. -/
def fieldVal (f : FieldInfo) : Value :=
  .vobj [("name", .vstr f.name), ("dataTypeID", .vnum f.dataTypeID)]

/-- A possibly-null integer as a JSON value. -/
def optIntVal : Option Int → Value
  | some n => .vnum n
  | none => .vnull

/-- The object handed to `JSON.stringify` by `executeQuery`.  When
`result.fields` is `undefined`, `fields` holds `undefined` and
`JSON.stringify` omits the member, so no `fields` key is emitted. -/
def queryPayload (res : PgResult) : Value :=
  .vobj ([("rows", .varr res.rows), ("rowCount", optIntVal res.rowCount)] ++
    (match res.fields with
     | some fl => [("fields", .varr (fl.map fieldVal))]
     | none => []))

/-- `executeQuery` (index.ts lines 204-253): validate, guard, then
connect/query/release inside try-finally. -/
def executeQuery (db : Db) (args : Value) : HandlerOut :=
  match parseQuery args with
  | .error m => ⟨.error (invalidParams ("Invalid parameters: " ++ m)), 0, 0, []⟩
  | .ok qa =>
    if isDangerous qa.sql && !startsWithSelect qa.sql then
      ⟨.error (invalidParams "Only SELECT queries are allowed for security reasons"), 0, 0, []⟩
    else
      match db.connect with
      | .error e => ⟨.error (.js e), 0, 0, []⟩
      | .ok _ =>
        match db.run qa.sql qa.params with
        | .ok res => ⟨.ok (mkText (queryPayload res)), 1, 1, [(qa.sql, qa.params)]⟩
        | .error e => ⟨.error (.js e), 1, 1, [(qa.sql, qa.params)]⟩

/-- The fixed SQL text of `listTables` (template literal, index.ts 270-273). -/
def listTablesSQL : String :=
  "SELECT table_name, table_type \n         FROM information_schema.tables \n         WHERE table_schema = $1 \n         ORDER BY table_name"

/-- `listTables` (index.ts lines 255-293). -/
def listTables (db : Db) (args : Value) : HandlerOut :=
  match parseTable args with
  | .error m => ⟨.error (invalidParams ("Invalid parameters: " ++ m)), 0, 0, []⟩
  | .ok ta =>
    match db.connect with
    | .error e => ⟨.error (.js e), 0, 0, []⟩
    | .ok _ =>
      match db.run listTablesSQL [.vstr ta.schema] with
      | .ok res =>
        ⟨.ok (mkText (.vobj [("schema", .vstr ta.schema), ("tables", .varr res.rows)])),
         1, 1, [(listTablesSQL, [.vstr ta.schema])]⟩
      | .error e => ⟨.error (.js e), 1, 1, [(listTablesSQL, [.vstr ta.schema])]⟩

/-- The columns query of `describeTable` (index.ts 312-322). -/
def columnsSQL : String :=
  "SELECT \n           column_name,\n           data_type,\n           is_nullable,\n           column_default,\n           character_maximum_length,\n           numeric_precision,\n           numeric_scale\n         FROM information_schema.columns \n         WHERE table_schema = $1 AND table_name = $2\n         ORDER BY ordinal_position"

/-- The constraints query of `describeTable` (index.ts 328-335). -/
def constraintsSQL : String :=
  "SELECT \n           tc.constraint_name,\n           tc.constraint_type,\n           kcu.column_name\n         FROM information_schema.table_constraints tc\n         JOIN information_schema.key_column_usage kcu \n           ON tc.constraint_name = kcu.constraint_name\n         WHERE tc.table_schema = $1 AND tc.table_name = $2"

/-- `describeTable` (index.ts lines 295-356): two queries on one connection. -/
def describeTable (db : Db) (args : Value) : HandlerOut :=
  match parseDescribe args with
  | .error m => ⟨.error (invalidParams ("Invalid parameters: " ++ m)), 0, 0, []⟩
  | .ok da =>
    match db.connect with
    | .error e => ⟨.error (.js e), 0, 0, []⟩
    | .ok _ =>
      match db.run columnsSQL [.vstr da.schema, .vstr da.table] with
      | .error e => ⟨.error (.js e), 1, 1, [(columnsSQL, [.vstr da.schema, .vstr da.table])]⟩
      | .ok cols =>
        match db.run constraintsSQL [.vstr da.schema, .vstr da.table] with
        | .error e =>
          ⟨.error (.js e), 1, 1,
           [(columnsSQL, [.vstr da.schema, .vstr da.table]),
            (constraintsSQL, [.vstr da.schema, .vstr da.table])]⟩
        | .ok cons =>
          ⟨.ok (mkText (.vobj
              [("table", .vstr (da.schema ++ "." ++ da.table)),
               ("columns", .varr cols.rows),
               ("constraints", .varr cons.rows)])),
           1, 1,
           [(columnsSQL, [.vstr da.schema, .vstr da.table]),
            (constraintsSQL, [.vstr da.schema, .vstr da.table])]⟩

/-- The interpolated SQL of `getTableData` (index.ts 381). -/
def getDataSQL (schema table : String) : String :=
  "SELECT * FROM " ++ schema ++ "." ++ table ++ " LIMIT $1"

/-- `getTableData` (index.ts lines 358-403). -/
def getTableData (db : Db) (args : Value) : HandlerOut :=
  match parseGetData args with
  | .error m => ⟨.error (invalidParams ("Invalid parameters: " ++ m)), 0, 0, []⟩
  | .ok ga =>
    match db.connect with
    | .error e => ⟨.error (.js e), 0, 0, []⟩
    | .ok _ =>
      match db.run (getDataSQL ga.schema ga.table) [.vnum ga.limit] with
      | .ok res =>
        ⟨.ok (mkText (.vobj
            [("table", .vstr (ga.schema ++ "." ++ ga.table)),
             ("limit", .vnum ga.limit),
             ("rowCount", optIntVal res.rowCount),
             ("data", .varr res.rows)])),
         1, 1, [(getDataSQL ga.schema ga.table, [.vnum ga.limit])]⟩
      | .error e =>
        ⟨.error (.js e), 1, 1, [(getDataSQL ga.schema ga.table, [.vnum ga.limit])]⟩

/-- The catch block of `setupToolHandlers`: an `McpError` is rethrown as
is, anything else is wrapped into `InternalError` with the tool name. -/
def wrapThrown (name : String) : Except Thrown ToolResponse → Except McpError ToolResponse
  | .ok r => .ok r
  | .error (.mcp e) => .error e
  | .error (.js m) => .error ⟨.InternalError, "Failed to execute " ++ name ++ ": " ++ m⟩

/-- Attach the catch-block wrapping to a handler outcome. -/
def toOut (name : String) (h : HandlerOut) : DispatchOut :=
  ⟨wrapThrown name h.result, h.acquires, h.releases, h.executed⟩

/-- The `CallToolRequestSchema` handler (index.ts lines 167-201): route by
tool name, or fail with `MethodNotFound`. -/
def dispatch (db : Db) (name : String) (args : Value) : DispatchOut :=
  if name = "query_database" then toOut name (executeQuery db args)
  else if name = "list_tables" then toOut name (listTables db args)
  else if name = "describe_table" then toOut name (describeTable db args)
  else if name = "get_table_data" then toOut name (getTableData db args)
  else ⟨.error ⟨.MethodNotFound, "Unknown tool: " ++ name⟩, 0, 0, []⟩

/-! ### Observation helpers used to state the claims -/

/-- Does a dispatch result fail with the `InvalidParams` code? -/
def failsInvalidParams : Except McpError ToolResponse → Bool
  | .error ⟨.InvalidParams, _⟩ => true
  | _ => false

/-- The single serialized payload of a successful response. -/
def payloadOf : Except McpError ToolResponse → Option Value
  | .ok ⟨[⟨_, p⟩]⟩ => some p
  | _ => none

/-- Does an object value carry the given key? -/
def hasKey (v : Value) (k : String) : Bool :=
  match v with
  | .vobj fs => (lookupKey fs k).isSome
  | _ => false

/-- Every entry of the payload's `fields` array carries `name` and
`dataTypeID`. -/
def fieldsEntriesOk (p : Value) : Bool :=
  match p with
  | .vobj fs =>
    match lookupKey fs "fields" with
    | some (.varr es) => es.all fun e => hasKey e "name" && hasKey e "dataTypeID"
    | _ => false
  | _ => false

/-- The `tables` array of a `listTables` response. -/
def tablesOf (r : Except McpError ToolResponse) : Option (List Value) :=
  match r with
  | .ok ⟨[⟨_, .vobj fs⟩]⟩ =>
    match lookupKey fs "tables" with
    | some (.varr ts) => some ts
    | _ => none
  | _ => none

/-- The `table_name` column of a result row (empty when absent). -/
def tableNameOf (row : Value) : String :=
  match row with
  | .vobj fs =>
    match lookupKey fs "table_name" with
    | some (.vstr s) => s
    | _ => ""
  | _ => ""

/-- Lexicographic comparison on character lists. -/
def leChars : List Char → List Char → Bool
  | [], _ => true
  | _ :: _, [] => false
  | a :: as, b :: bs => if a == b then leChars as bs else decide (a < b)

/-- Lexicographic string comparison (ascending name order). -/
def leStr (a b : String) : Bool :=
  leChars a.data b.data

/-- Rows are sorted ascending by their `table_name` column. -/
def sortedByName : List Value → Bool
  | [] => true
  | [_] => true
  | a :: b :: rest => leStr (tableNameOf a) (tableNameOf b) && sortedByName (b :: rest)

/-! ### Sample collaborators for concrete evaluations -/

/-- An empty successful pg result (zero rows, no fields). -/
def emptyPg : PgResult :=
  ⟨[], some 0, some []⟩

/-- A collaborator that always connects and answers every query with the
empty result. -/
def dbOk : Db :=
  ⟨.ok (), fun _ _ => .ok emptyPg⟩

/-- A `listTables` result row for a base table named `n`. -/
def rowT (n : String) : Value :=
  .vobj [("table_name", .vstr n), ("table_type", .vstr "BASE TABLE")]

/-- A collaborator answering every query with two table rows in ascending
name order. -/
def dbTables : Db :=
  ⟨.ok (), fun _ _ => .ok ⟨[rowT "aaa", rowT "bbb"], some 2, some []⟩⟩

/-! ### Helper lemmas -/

/-- A SQL string matched by the dangerous pattern is non-empty. -/
theorem isDangerous_nonempty (sql : String) (h : isDangerous sql = true) :
    1 ≤ sql.length := by
  rcases sql with ⟨data⟩
  cases data with
  | nil => exact absurd h (by decide)
  | cons c cs => simp [String.length]

/-- Dispatching `query_database` routes to `executeQuery`. -/
theorem dispatch_query (db : Db) (args : Value) :
    dispatch db "query_database" args = toOut "query_database" (executeQuery db args) := rfl

/-- Dispatching `list_tables` routes to `listTables`. -/
theorem dispatch_list (db : Db) (args : Value) :
    dispatch db "list_tables" args = toOut "list_tables" (listTables db args) := rfl

/-- Dispatching `describe_table` routes to `describeTable`. -/
theorem dispatch_describe (db : Db) (args : Value) :
    dispatch db "describe_table" args = toOut "describe_table" (describeTable db args) := rfl

/-- Dispatching `get_table_data` routes to `getTableData`. -/
theorem dispatch_getdata (db : Db) (args : Value) :
    dispatch db "get_table_data" args = toOut "get_table_data" (getTableData db args) := rfl

/-- An argument object holding only a `sql` string of positive length
passes `QuerySchema` with defaulted `params`. -/
theorem parseQuery_sqlOnly (sql : String) (h : 1 ≤ sql.length) :
    parseQuery (.vobj [("sql", .vstr sql)]) = .ok ⟨sql, []⟩ := by
  simp [parseQuery, lookupKey, h]

/-! ### Claim theorems -/

/-- Claim C2 (confirmed): for every SQL string that, after trimming and
lowercasing, begins with `select`, the guard inside `query_database`
returns Allowed, regardless of any mutating keywords in the text. -/
theorem guard_allows_select_prefixed (sql : String)
    (h : startsWithSelect sql = true) : guardEvaluate sql = .allowed := by
  unfold guardEvaluate
  rw [h]
  simp

/-- Witness for C2: a select-prefixed query with an embedded `DROP` is
still allowed. -/
theorem guard_allows_select_prefixed_witness :
    startsWithSelect "  SELECT 1; DROP TABLE x" = true ∧
    guardEvaluate "  SELECT 1; DROP TABLE x" = .allowed :=
  ⟨by decide, guard_allows_select_prefixed _ (by decide)⟩

/-- Claim C10 (confirmed): a mutating keyword immediately followed by a
non-whitespace character (or by the end of the string) escapes the
dangerous-pattern test, so the bare string `DROP` and
`DELETE/**/FROM t` are both Allowed while `DROP TABLE t` is rejected. -/
theorem guard_misses_keyword_without_whitespace :
    isDangerous "DROP" = false ∧
    guardEvaluate "DROP" = .allowed ∧
    startsWithSelect "DROP" = false ∧
    isDangerous "DELETE/**/FROM t" = false ∧
    guardEvaluate "DELETE/**/FROM t" = .allowed ∧
    startsWithSelect "DELETE/**/FROM t" = false ∧
    guardEvaluate "DROP TABLE t" =
      .rejected "Only SELECT queries are allowed for security reasons" := by
  refine ⟨by decide, by decide, by decide, by decide, by decide, by decide, by decide⟩

/-- Counterexample for C1: `DROP TABLE weather_data` satisfies the claim's
antecedent, yet the guard's reason is `Only SELECT queries are allowed for
security reasons` (capital `O`), not the lowercase reason the claim
quotes. -/
theorem guard_reason_is_capitalized :
    isDangerous "DROP TABLE weather_data" = true ∧
    startsWithSelect "DROP TABLE weather_data" = false ∧
    guardEvaluate "DROP TABLE weather_data" =
      .rejected "Only SELECT queries are allowed for security reasons" ∧
    guardEvaluate "DROP TABLE weather_data" ≠
      .rejected "only SELECT queries are allowed for security reasons" := by
  refine ⟨by decide, by decide, by decide, by decide⟩

/-- Claim C1 (amended): every SQL string matched by the dangerous keyword
pattern (whole word, case-insensitive, followed by whitespace) that does
not begin with `select` after trimming and lowercasing is rejected by the
guard, and `query_database` fails with `InvalidParams` carrying the reason
`Only SELECT queries are allowed for security reasons` (capital `O`). -/
theorem query_rejects_dangerous_nonselect (db : Db) (sql : String)
    (hd : isDangerous sql = true) (hs : startsWithSelect sql = false) :
    (dispatch db "query_database" (.vobj [("sql", .vstr sql)])).result =
      .error ⟨.InvalidParams, "Only SELECT queries are allowed for security reasons"⟩ ∧
    guardEvaluate sql =
      .rejected "Only SELECT queries are allowed for security reasons" := by
  have hlen := isDangerous_nonempty sql hd
  constructor
  · rw [dispatch_query]
    unfold executeQuery
    rw [parseQuery_sqlOnly sql hlen]
    simp [hd, hs, toOut, wrapThrown, invalidParams]
  · unfold guardEvaluate
    rw [hd, hs]
    simp

/-- Witness for the amended C1 at `DROP TABLE weather_data`. -/
theorem query_rejects_dangerous_nonselect_witness :
    (dispatch dbOk "query_database" (.vobj [("sql", .vstr "DROP TABLE weather_data")])).result =
      .error ⟨.InvalidParams, "Only SELECT queries are allowed for security reasons"⟩ ∧
    guardEvaluate "DROP TABLE weather_data" =
      .rejected "Only SELECT queries are allowed for security reasons" :=
  query_rejects_dangerous_nonselect dbOk "DROP TABLE weather_data" (by decide) (by decide)

/-- Claim C3 (confirmed): `query_database` with `DROP TABLE weather_data`
fails with `InvalidParams` for every collaborator, acquiring no
connection, releasing none and executing no query. -/
theorem run_query_drop_never_executes (db : Db) :
    dispatch db "query_database" (.vobj [("sql", .vstr "DROP TABLE weather_data")]) =
      ⟨.error ⟨.InvalidParams, "Only SELECT queries are allowed for security reasons"⟩,
       0, 0, []⟩ := rfl

/-- Claim C9 (confirmed): `query_database` with empty `sql` fails with
`InvalidParams` for every collaborator, before any connection is acquired
and before any query is executed. -/
theorem run_query_empty_sql_invalid (db : Db) :
    failsInvalidParams (dispatch db "query_database" (.vobj [("sql", .vstr "")])).result = true ∧
    (dispatch db "query_database" (.vobj [("sql", .vstr "")])).acquires = 0 ∧
    (dispatch db "query_database" (.vobj [("sql", .vstr "")])).executed = [] :=
  ⟨rfl, rfl, rfl⟩

/-- `executeQuery` balances acquisitions and releases on every path. -/
theorem executeQuery_balanced (db : Db) (args : Value) :
    (executeQuery db args).acquires = (executeQuery db args).releases := by
  unfold executeQuery
  split
  · rfl
  · split
    · rfl
    · split
      · rfl
      · split <;> rfl

/-- `listTables` balances acquisitions and releases on every path. -/
theorem listTables_balanced (db : Db) (args : Value) :
    (listTables db args).acquires = (listTables db args).releases := by
  unfold listTables
  split
  · rfl
  · split
    · rfl
    · split <;> rfl

/-- `describeTable` balances acquisitions and releases on every path. -/
theorem describeTable_balanced (db : Db) (args : Value) :
    (describeTable db args).acquires = (describeTable db args).releases := by
  unfold describeTable
  split
  · rfl
  · split
    · rfl
    · split
      · rfl
      · split <;> rfl

/-- `getTableData` balances acquisitions and releases on every path. -/
theorem getTableData_balanced (db : Db) (args : Value) :
    (getTableData db args).acquires = (getTableData db args).releases := by
  unfold getTableData
  split
  · rfl
  · split
    · rfl
    · split <;> rfl

/-- Claim C4 (confirmed): for every tool name, argument value and
collaborator behavior (including connection failure and a raising
execution step), one dispatch acquires exactly as many connections as it
releases. -/
theorem dispatch_acquires_eq_releases (db : Db) (name : String) (args : Value) :
    (dispatch db name args).acquires = (dispatch db name args).releases := by
  unfold dispatch
  split
  · exact executeQuery_balanced db args
  · split
    · exact listTables_balanced db args
    · split
      · exact describeTable_balanced db args
      · split
        · exact getTableData_balanced db args
        · rfl

/-- Counterexample for C5: `describe_table` with `table = ""` (and a
collaborator that answers queries) does not fail with `InvalidParams`; it
acquires a connection, runs both introspection queries and succeeds,
because `TableSchema.required` only demands that `table` be a string. -/
theorem describe_table_accepts_empty_table :
    failsInvalidParams (dispatch dbOk "describe_table" (.vobj [("table", .vstr "")])).result = false ∧
    (dispatch dbOk "describe_table" (.vobj [("table", .vstr "")])).result =
      .ok (mkText (.vobj [("table", .vstr "public."), ("columns", .varr []),
                          ("constraints", .varr [])])) ∧
    (dispatch dbOk "describe_table" (.vobj [("table", .vstr "")])).acquires = 1 :=
  ⟨rfl, rfl, rfl⟩

/-- Claim C5 (amended): `describe_table` fails with `InvalidParams`
whenever the `table` argument is missing, for every value of the other
arguments and before any connection is acquired; an empty-string `table`,
however, passes validation (only `get_table_data` checks non-emptiness). -/
theorem describe_table_missing_table_invalid (db : Db) (fs : List (String × Value))
    (h : lookupKey fs "table" = none) :
    failsInvalidParams (dispatch db "describe_table" (.vobj fs)).result = true ∧
    (dispatch db "describe_table" (.vobj fs)).acquires = 0 := by
  rw [dispatch_describe]
  unfold describeTable
  constructor <;>
    simp [parseDescribe, h, toOut, wrapThrown, invalidParams, failsInvalidParams]

/-- Witness for the amended C5 at an empty argument object. -/
theorem describe_table_missing_table_invalid_witness :
    failsInvalidParams (dispatch dbOk "describe_table" (.vobj [])).result = true ∧
    (dispatch dbOk "describe_table" (.vobj [])).acquires = 0 :=
  describe_table_missing_table_invalid dbOk [] rfl

/-- Under either invalid `get_table_data` argument — empty `table`, or a
non-positive numeric `limit` — the inline zod schema fails. -/
theorem parseGetData_fails (fs : List (String × Value)) (n : Int)
    (h : lookupKey fs "table" = some (.vstr "") ∨
         (lookupKey fs "limit" = some (.vnum n) ∧ n ≤ 0)) :
    ∃ m, parseGetData (.vobj fs) = .error m := by
  rcases h with h1 | ⟨h2, hn⟩
  · exact ⟨"Table name cannot be empty", by simp [parseGetData, h1]⟩
  · have hn' : ¬ (0 : Int) < n := by omega
    cases ht : lookupKey fs "table" with
    | none => exact ⟨"Required", by simp [parseGetData, ht]⟩
    | some v =>
      cases v with
      | vstr t =>
        by_cases hl : 1 ≤ t.length
        · cases hsch : lookupKey fs "schema" with
          | none =>
            exact ⟨"Number must be greater than 0",
              by simp [parseGetData, ht, hsch, h2, hl, hn']⟩
          | some w =>
            cases w with
            | vstr s =>
              exact ⟨"Number must be greater than 0",
                by simp [parseGetData, ht, hsch, h2, hl, hn']⟩
            | vnull => exact ⟨"Expected string, received other", by simp [parseGetData, ht, hsch, hl]⟩
            | vbool b => exact ⟨"Expected string, received other", by simp [parseGetData, ht, hsch, hl]⟩
            | vnum m => exact ⟨"Expected string, received other", by simp [parseGetData, ht, hsch, hl]⟩
            | varr a => exact ⟨"Expected string, received other", by simp [parseGetData, ht, hsch, hl]⟩
            | vobj o => exact ⟨"Expected string, received other", by simp [parseGetData, ht, hsch, hl]⟩
        · exact ⟨"Table name cannot be empty", by simp [parseGetData, ht, hl]⟩
      | vnull => exact ⟨"Expected string, received other", by simp [parseGetData, ht]⟩
      | vbool b => exact ⟨"Expected string, received other", by simp [parseGetData, ht]⟩
      | vnum m => exact ⟨"Expected string, received other", by simp [parseGetData, ht]⟩
      | varr a => exact ⟨"Expected string, received other", by simp [parseGetData, ht]⟩
      | vobj o => exact ⟨"Expected string, received other", by simp [parseGetData, ht]⟩

/-- Claim C7 (confirmed): `get_table_data` fails with `InvalidParams`
whenever `table` is the empty string or the numeric `limit` is zero or
negative, and in that case no connection is acquired and no query is
executed. -/
theorem get_table_data_invalid_args (db : Db) (fs : List (String × Value)) (n : Int)
    (h : lookupKey fs "table" = some (.vstr "") ∨
         (lookupKey fs "limit" = some (.vnum n) ∧ n ≤ 0)) :
    failsInvalidParams (dispatch db "get_table_data" (.vobj fs)).result = true ∧
    (dispatch db "get_table_data" (.vobj fs)).acquires = 0 ∧
    (dispatch db "get_table_data" (.vobj fs)).executed = [] := by
  obtain ⟨m, hm⟩ := parseGetData_fails fs n h
  rw [dispatch_getdata]
  unfold getTableData
  rw [hm]
  exact ⟨rfl, rfl, rfl⟩

/-- Witness for C7 at `table = ""` and `limit = 0`. -/
theorem get_table_data_invalid_args_witness :
    failsInvalidParams (dispatch dbOk "get_table_data"
        (.vobj [("table", .vstr ""), ("limit", .vnum 0)])).result = true ∧
    (dispatch dbOk "get_table_data"
        (.vobj [("table", .vstr ""), ("limit", .vnum 0)])).acquires = 0 ∧
    (dispatch dbOk "get_table_data"
        (.vobj [("table", .vstr ""), ("limit", .vnum 0)])).executed = [] :=
  get_table_data_invalid_args dbOk [("table", .vstr ""), ("limit", .vnum 0)] 0 (.inl rfl)

/-- Claim C8 (confirmed): when the collaborator answers the fixed
`ORDER BY table_name` query with rows sorted ascending by `table_name`
(the ordering PostgreSQL guarantees for `listTablesSQL`), `list_tables`
returns exactly those rows as its `tables` array — the handler never
reorders them — and any two calls whose collaborators give the same
answer for the schema produce identical responses. -/
theorem list_tables_sorted_and_idempotent (db db' : Db) (sch : String) (res : PgResult)
    (hc : db.connect = .ok ()) (hc' : db'.connect = .ok ())
    (hr : db.run listTablesSQL [.vstr sch] = .ok res)
    (hr' : db'.run listTablesSQL [.vstr sch] = .ok res)
    (hs : sortedByName res.rows = true) :
    tablesOf (dispatch db "list_tables" (.vobj [("schema", .vstr sch)])).result =
      some res.rows ∧
    sortedByName res.rows = true ∧
    dispatch db "list_tables" (.vobj [("schema", .vstr sch)]) =
      dispatch db' "list_tables" (.vobj [("schema", .vstr sch)]) := by
  have hparse : parseTable (.vobj [("schema", .vstr sch)]) = .ok ⟨sch, none⟩ := by
    simp [parseTable, lookupKey]
  have hrun : ∀ d : Db, d.connect = .ok () → d.run listTablesSQL [.vstr sch] = .ok res →
      listTables d (.vobj [("schema", .vstr sch)]) =
        ⟨.ok (mkText (.vobj [("schema", .vstr sch), ("tables", .varr res.rows)])),
         1, 1, [(listTablesSQL, [.vstr sch])]⟩ := by
    intro d hcd hrd
    unfold listTables
    rw [hparse]
    dsimp only
    rw [hcd]
    dsimp only
    rw [hrd]
  refine ⟨?_, hs, ?_⟩
  · rw [dispatch_list, hrun db hc hr]
    simp [toOut, wrapThrown, tablesOf, mkText, lookupKey]
  · rw [dispatch_list, dispatch_list, hrun db hc hr, hrun db' hc' hr']

/-- Witness for C8 over a two-table collaborator. -/
theorem list_tables_sorted_and_idempotent_witness :
    tablesOf (dispatch dbTables "list_tables" (.vobj [("schema", .vstr "public")])).result =
      some [rowT "aaa", rowT "bbb"] ∧
    sortedByName [rowT "aaa", rowT "bbb"] = true ∧
    dispatch dbTables "list_tables" (.vobj [("schema", .vstr "public")]) =
      dispatch dbTables "list_tables" (.vobj [("schema", .vstr "public")]) :=
  list_tables_sorted_and_idempotent dbTables dbTables "public"
    ⟨[rowT "aaa", rowT "bbb"], some 2, some []⟩ rfl rfl rfl rfl (by decide)

/-- Every serialized field descriptor carries `name` and `dataTypeID`. -/
theorem fieldVal_entries (fl : List FieldInfo) :
    (fl.map fieldVal).all (fun e => hasKey e "name" && hasKey e "dataTypeID") = true := by
  induction fl with
  | nil => rfl
  | cons f fl ih => simp [fieldVal, hasKey, lookupKey, ih]

/-- Claim C6 (confirmed): when the collaborator supplies a field list with
every successful execution (the pg driver contract), every successful
`query_database` response carries a single payload holding the keys
`rows`, `rowCount` and `fields`, every entry of `fields` holding `name`
and `dataTypeID` — including when `rows` is empty. -/
theorem query_payload_keys (db : Db) (args : Value) (r : ToolResponse)
    (hfields : ∀ s p res, db.run s p = .ok res → res.fields.isSome = true)
    (hok : (dispatch db "query_database" args).result = .ok r) :
    ∃ p, payloadOf ((dispatch db "query_database" args).result) = some p ∧
      hasKey p "rows" = true ∧ hasKey p "rowCount" = true ∧
      hasKey p "fields" = true ∧ fieldsEntriesOk p = true := by
  rw [dispatch_query] at hok ⊢
  revert hok
  unfold executeQuery
  cases hp : parseQuery args with
  | error m =>
    dsimp only
    intro hok
    exact absurd hok (by simp [toOut, wrapThrown, invalidParams])
  | ok qa =>
    dsimp only
    by_cases hg : (isDangerous qa.sql && !startsWithSelect qa.sql) = true
    · rw [if_pos hg]
      intro hok
      exact absurd hok (by simp [toOut, wrapThrown, invalidParams])
    · rw [if_neg hg]
      cases hc : db.connect with
      | error e =>
        dsimp only
        intro hok
        exact absurd hok (by simp [toOut, wrapThrown])
      | ok u =>
        dsimp only
        cases hrun : db.run qa.sql qa.params with
        | error e =>
          dsimp only
          intro hok
          exact absurd hok (by simp [toOut, wrapThrown])
        | ok res =>
          dsimp only
          intro _
          obtain ⟨fl, hfl⟩ := Option.isSome_iff_exists.mp (hfields _ _ _ hrun)
          refine ⟨queryPayload res, ?_, ?_, ?_, ?_, ?_⟩
          · simp [toOut, wrapThrown, payloadOf, mkText]
          · simp [queryPayload, hasKey, lookupKey]
          · simp [queryPayload, hasKey, lookupKey]
          · simp [queryPayload, hfl, hasKey, lookupKey]
          · simp [fieldsEntriesOk, queryPayload, hfl, lookupKey, fieldVal_entries]

/-- Witness for C6: a successful zero-row query against `dbOk`. -/
theorem query_payload_keys_witness :
    ∃ p, payloadOf ((dispatch dbOk "query_database"
        (.vobj [("sql", .vstr "SELECT 1")])).result) = some p ∧
      hasKey p "rows" = true ∧ hasKey p "rowCount" = true ∧
      hasKey p "fields" = true ∧ fieldsEntriesOk p = true :=
  query_payload_keys dbOk (.vobj [("sql", .vstr "SELECT 1")])
    (mkText (queryPayload emptyPg))
    (fun s p res h => by cases h; rfl) rfl

/-- Witness for C3 at the always-succeeding collaborator. -/
theorem run_query_drop_never_executes_witness :
    dispatch dbOk "query_database" (.vobj [("sql", .vstr "DROP TABLE weather_data")]) =
      ⟨.error ⟨.InvalidParams, "Only SELECT queries are allowed for security reasons"⟩,
       0, 0, []⟩ :=
  run_query_drop_never_executes dbOk

/-- Witness for C4 at a concrete collaborator, tool name and argument. -/
theorem dispatch_acquires_eq_releases_witness :
    (dispatch dbOk "query_database" (.vobj [("sql", .vstr "SELECT 1")])).acquires =
      (dispatch dbOk "query_database" (.vobj [("sql", .vstr "SELECT 1")])).releases :=
  dispatch_acquires_eq_releases dbOk "query_database" (.vobj [("sql", .vstr "SELECT 1")])

/-- Witness for C9 at the always-succeeding collaborator. -/
theorem run_query_empty_sql_invalid_witness :
    failsInvalidParams (dispatch dbOk "query_database" (.vobj [("sql", .vstr "")])).result = true ∧
    (dispatch dbOk "query_database" (.vobj [("sql", .vstr "")])).acquires = 0 ∧
    (dispatch dbOk "query_database" (.vobj [("sql", .vstr "")])).executed = [] :=
  run_query_empty_sql_invalid dbOk
